import Mathlib

/-!
Verification of the weir process-execution core (src/weir/process.py and
src/weir/zfs.py) against its specification.  The Python code is shallowly
embedded: pure string processing becomes Lean functions on String and
List Char, exceptions become Except or an explicit outcome type, and the
background stderr-drain thread becomes an explicit fold over the list of
stderr lines together with a cut point recording how far the drain had
progressed when the foreground wait returned.
-/

set_option maxRecDepth 8192

/-- The single-quote character (ASCII 39) used by the zfs diagnostic
patterns; kept as a named constant so the patterns below can be assembled
without quote characters inside string literals. -/
def quoteCh : Char := Char.ofNat 39

/-- The one-character string holding a single quote. -/
def quoteStr : String := String.mk [quoteCh]

/-- The whitespace characters removed by Python str.strip() on ASCII text:
space, tab, newline, carriage return, vertical tab, form feed. -/
def isPySpace (c : Char) : Bool :=
  c = ' ' || c = Char.ofNat 9 || c = Char.ofNat 10 ||
  c = Char.ofNat 13 || c = Char.ofNat 11 || c = Char.ofNat 12

/-- Python line.strip(): removes leading and trailing whitespace
(process.py line 127, msg = line.strip()). -/
def pyStrip (s : String) : String :=
  String.mk (((s.toList.dropWhile isPySpace).reverse.dropWhile isPySpace).reverse)

/-- The transformation described literally by the specification sentence
for the Stream Drain, which says only trailing whitespace is stripped.
Kept separate from pyStrip so the two can be compared. -/
def stripTrailing (s : String) : String :=
  String.mk ((s.toList.reverse.dropWhile isPySpace).reverse)

/-- Split a character list at every occurrence of a separator, Python
str.split(sep) semantics: the empty string yields one empty field, and
empty fields are preserved. -/
def splitOnChar (sep : Char) : List Char → List (List Char)
  | [] => [[]]
  | c :: cs =>
    match splitOnChar sep cs with
    | [] => [[]]
    | g :: gs => if c = sep then [] :: g :: gs else (c :: g) :: gs

/-- Python line.split with a tab delimiter (process.py line 139). -/
def pySplitTab (s : String) : List String :=
  (splitOnChar (Char.ofNat 9) s.toList).map String.mk

/-- Python stdout.splitlines() for text in universal-newlines mode, where
every line boundary has already been translated to a newline: the empty
string yields no lines and a trailing newline does not create a final
empty line (process.py line 139). -/
def pySplitlines (s : String) : List String :=
  if s.toList = [] then []
  else
    let gs := (splitOnChar (Char.ofNat 10) s.toList).map String.mk
    if s.toList.getLast? = some (Char.ofNat 10) then gs.dropLast else gs

namespace weir.process

/-- Pipe sentinel, mirroring superprocess.PIPE (process.py line 13). -/
def PIPE : Int := -1

/-- Redirect-to-stderr sentinel, mirroring superprocess.STDERR
(process.py line 15; zfs.py line 58 fixes the value STDOUT - 1). -/
def STDERR : Int := -3

/-- The possible outcomes of CompletedProcess.check_returncode
(process.py lines 44-82).  The first six constructors are the typed
domain errors of process.py lines 18-41 plus success; calledProcessError
is the generic failure raised by the superclass, which is not under src:
modelled from the spec, it carries the exit status and the captured
diagnostic text.  typeError records the Python TypeError produced when
re.search is applied to a None stderr value. -/
inductive CheckOutcome where
  | ok : CheckOutcome
  | datasetNotFound (dataset : String) : CheckOutcome
  | datasetExists (dataset : String) : CheckOutcome
  | datasetBusy (dataset : String) : CheckOutcome
  | holdTagNotFound (dataset : String) : CheckOutcome
  | holdTagExists (dataset : String) : CheckOutcome
  | calledProcessError (returncode : Int) (stderr : Option String) : CheckOutcome
  | typeError : CheckOutcome
  deriving DecidableEq

/-- Consume an expected literal prefix of a character list; none when the
list does not start with it. -/
def stripPre : List Char → List Char → Option (List Char)
  | [], s => some s
  | _ :: _, [] => none
  | p :: ps, c :: cs => if p = c then stripPre ps cs else none

/-- Consume characters up to the next single quote, also consuming the
quote; none when no quote remains.  This is the unique way the regex
fragment quote、[^quote]+、quote can match, since the class excludes the
quote itself. -/
def splitAtQuote : List Char → Option (List Char × List Char)
  | [] => none
  | c :: cs =>
    if c = quoteCh then some ([], cs)
    else
      match splitAtQuote cs with
      | some (a, b) => some (c :: a, b)
      | none => none

/-- Python regex word character for the ASCII patterns used here. -/
def isWordChar (c : Char) : Bool := c.isAlphanum || c = '_'

/-- End-of-pattern test for a Python regex ending in a dollar anchor: the
rest of the subject equals the literal tail, or the tail followed by one
final newline. -/
def atEnd (post rest : List Char) : Bool :=
  rest = post || rest = post ++ [Char.ofNat 10]

/-- re.search of the anchored pattern of process.py line 52: cannot open
quote、name、quote、colon dataset does not exist; returns the captured
dataset name. -/
def matchDatasetNotFound (s : String) : Option String :=
  match stripPre ("cannot open ".toList ++ [quoteCh]) s.toList with
  | none => none
  | some rest =>
    match splitAtQuote rest with
    | none => none
    | some (name, rest2) =>
      if (!name.isEmpty) && atEnd ": dataset does not exist".toList rest2 then
        some (String.mk name)
      else none

/-- re.search of the anchored pattern of process.py line 58: cannot
create, a word, then the quoted name, then colon dataset already exists. -/
def matchDatasetExists (s : String) : Option String :=
  match stripPre "cannot create ".toList s.toList with
  | none => none
  | some rest =>
    let w := rest.takeWhile isWordChar
    let rest1 := rest.dropWhile isWordChar
    if w.isEmpty then none
    else
      match stripPre (' ' :: [quoteCh]) rest1 with
      | none => none
      | some rest2 =>
        match splitAtQuote rest2 with
        | none => none
        | some (name, rest3) =>
          if (!name.isEmpty) && atEnd ": dataset already exists".toList rest3 then
            some (String.mk name)
          else none

/-- re.search of the anchored pattern of process.py line 64: cannot
destroy the quoted name, colon dataset is busy. -/
def matchDatasetBusy (s : String) : Option String :=
  match stripPre ("cannot destroy ".toList ++ [quoteCh]) s.toList with
  | none => none
  | some rest =>
    match splitAtQuote rest with
    | none => none
    | some (name, rest2) =>
      if (!name.isEmpty) && atEnd ": dataset is busy".toList rest2 then
        some (String.mk name)
      else none

/-- re.search of the anchored pattern of process.py line 70: cannot
release a quoted tag from the quoted dataset, colon no such tag on this
dataset; the capture group is the dataset, the second quoted string. -/
def matchHoldTagNotFound (s : String) : Option String :=
  match stripPre ("cannot release ".toList ++ [quoteCh]) s.toList with
  | none => none
  | some rest =>
    match splitAtQuote rest with
    | none => none
    | some (tag, rest1) =>
      if tag.isEmpty then none
      else
        match stripPre (" from ".toList ++ [quoteCh]) rest1 with
        | none => none
        | some rest2 =>
          match splitAtQuote rest2 with
          | none => none
          | some (name, rest3) =>
            if (!name.isEmpty) &&
                atEnd ": no such tag on this dataset".toList rest3 then
              some (String.mk name)
            else none

/-- re.search of the anchored pattern of process.py line 76: cannot hold
the quoted dataset, colon tag already exists on this dataset. -/
def matchHoldTagExists (s : String) : Option String :=
  match stripPre ("cannot hold ".toList ++ [quoteCh]) s.toList with
  | none => none
  | some rest =>
    match splitAtQuote rest with
    | none => none
    | some (name, rest2) =>
      if (!name.isEmpty) && atEnd ": tag already exists on this dataset".toList rest2 then
        some (String.mk name)
      else none

/-- CompletedProcess.check_returncode (process.py lines 44-82): return on
a zero status; on status 1 try the five signatures in order, first match
winning; otherwise defer to the superclass, which raises
CalledProcessError with the status and stderr.  When stderr is None and
the status is 1, re.search raises TypeError. -/
def check_returncode (returncode : Int) (stderr : Option String) : CheckOutcome :=
  if returncode = 0 then CheckOutcome.ok
  else if returncode = 1 then
    match stderr with
    | none => CheckOutcome.typeError
    | some e =>
      match matchDatasetNotFound e with
      | some name => CheckOutcome.datasetNotFound name
      | none =>
      match matchDatasetExists e with
      | some name => CheckOutcome.datasetExists name
      | none =>
      match matchDatasetBusy e with
      | some name => CheckOutcome.datasetBusy name
      | none =>
      match matchHoldTagNotFound e with
      | some name => CheckOutcome.holdTagNotFound name
      | none =>
      match matchHoldTagExists e with
      | some name => CheckOutcome.holdTagExists name
      | none => CheckOutcome.calledProcessError returncode stderr
  else CheckOutcome.calledProcessError returncode stderr

/-- The two logging severities used by the drain. -/
inductive LogLevel where
  | debug
  | info
  deriving DecidableEq

/-- Severity selection of process.py lines 113-121: INFO when the command
vector contains the verbose flag, DEBUG otherwise. -/
def logLevelFor (cmd : List String) : LogLevel :=
  if "-v" ∈ cmd then LogLevel.info else LogLevel.debug

/-- The stream configuration passed to the underlying process primitive
by Popen, recording that a process was actually spawned. -/
structure SpawnConfig where
  cmd : List String
  stdin : Option Int
  stdout : Option Int
  stderr : Option Int
  universal_newlines : Bool
  deriving DecidableEq

/-- Popen stream validation and redirection (process.py lines 87-106):
reject stdin and stdout both set before spawning; redirect stdout to the
diagnostic channel when stdin is set; always capture stderr via a pipe;
text mode by default. -/
def Popen_init (cmd : List String) (stdin stdout : Option Int) :
    Except String SpawnConfig :=
  if stdin.isSome && stdout.isSome then
    Except.error "only one of stdin or stdout may be set"
  else
    let stdout1 := if stdin.isSome then some STDERR else stdout
    Except.ok ⟨cmd, stdin, stdout1, some PIPE, true⟩

/-- The body of the log_stderr background thread (process.py lines
124-129), one recursive step per stderr line: strip the line, append a
log record at the chosen severity, and overwrite err_msg with the
stripped line.  The state is the log so far together with err_msg. -/
def drain (lvl : LogLevel) (st : List (LogLevel × String) × Option String) :
    List String → List (LogLevel × String) × Option String
  | [] => st
  | line :: ls => drain lvl (st.1 ++ [(lvl, pyStrip line)], some (pyStrip line)) ls

/-- A complete run of the log_stderr thread over every stderr line, from
the initial state of no log records and err_msg None (process.py line
134). -/
def log_stderr (cmd : List String) (lines : List String) :
    List (LogLevel × String) × Option String :=
  drain (logLevelFor cmd) ([], none) lines

/-- The stdout parsing of Popen.communicate (process.py lines 138-139):
split into lines, then each line at tabs into a row of fields. -/
def parseRows (stdoutData : String) : List (List String) :=
  (pySplitlines stdoutData).map pySplitTab

/-- Popen.communicate (process.py lines 136-141).  The superclass
communicate waits for the process and reads stdout to completion; at that
moment the background drain has processed some prefix of the stderr
lines, modelled by the cut point k.  err_thread.join() then lets the
drain finish the remaining lines, and only afterwards is err_msg read and
returned next to the parsed output. -/
def communicate (cmd : List String) (stdoutData : Option String)
    (errLines : List String) (k : Nat) :
    Option (List (List String)) × Option String :=
  (stdoutData.map parseRows,
   (drain (logLevelFor cmd)
     (drain (logLevelFor cmd) ([], none) (errLines.take k))
     (errLines.drop k)).2)

/-- Modelled from the spec: superprocess.check_output, the capture mode
of the Command Runner, is not under src.  Per the spec it spawns with
output piped, runs communicate to completion, and runs the Result
Classifier on the captured result, raising the typed error on failure
and otherwise returning the parsed rows. -/
def check_output (cmd : List String) (returncode : Int)
    (stdoutData : Option String) (errLines : List String) (k : Nat) :
    Except CheckOutcome (Option (List (List String))) :=
  match check_returncode returncode (communicate cmd stdoutData errLines k).2 with
  | CheckOutcome.ok => Except.ok (communicate cmd stdoutData errLines k).1
  | e => Except.error e

/-- Modelled from the spec: superprocess.check_call, the run mode of the
Command Runner, is not under src.  Per the spec it spawns without piping
stdout, waits via communicate, and runs the Result Classifier, raising
the typed error on failure. -/
def check_call (cmd : List String) (returncode : Int)
    (errLines : List String) (k : Nat) : Except CheckOutcome Unit :=
  match check_returncode returncode (communicate cmd none errLines k).2 with
  | CheckOutcome.ok => Except.ok ()
  | e => Except.error e

end weir.process

namespace weir.zfs

/-- The generic failure raised by Process.check (zfs.py line 77),
carrying the exit status and the command vector. -/
structure CalledProcessError where
  returncode : Int
  cmd : List String
  deriving DecidableEq

/-- Python truthiness of a stored return code: None and 0 are falsy. -/
def truthy : Option Int → Bool
  | none => false
  | some n => n != 0

/-- Process.check (zfs.py lines 75-77): raise CalledProcessError when the
stored return code is truthy. -/
def Process.check (returncode : Option Int) (cmd : List String) :
    Except CalledProcessError Unit :=
  match returncode with
  | some n => if n ≠ 0 then Except.error ⟨n, cmd⟩ else Except.ok ()
  | none => Except.ok ()

/-- Process.wait (zfs.py lines 83-85): the superclass wait stores the
exit status rc, then check runs; having no return statement, wait itself
returns None. -/
def Process.wait (rc : Int) (cmd : List String) :
    Except CalledProcessError (Option Int) :=
  match Process.check (some rc) cmd with
  | Except.error e => Except.error e
  | Except.ok _ => Except.ok none

/-- Process.poll (zfs.py lines 79-81): the stored return code is still
None while the process runs; like wait, poll returns None when it does
not raise. -/
def Process.poll (rc : Option Int) (cmd : List String) :
    Except CalledProcessError (Option Int) :=
  match Process.check rc cmd with
  | Except.error e => Except.error e
  | Except.ok _ => Except.ok none

/-- PopenFile.close (zfs.py lines 47-51): close the wrapped pipe end
first, then wait for the process; the value bound from wait is returned
when truthy, otherwise close falls off the end returning None.  The first
component records that the wrapped file has been closed, which holds on
every path, including when wait raises. -/
def PopenFile.close (rc : Int) (cmd : List String) :
    Bool × Except CalledProcessError (Option Int) :=
  match Process.wait rc cmd with
  | Except.error e => (true, Except.error e)
  | Except.ok r => (true, if truthy r then Except.ok r else Except.ok none)

end weir.zfs

open weir.process weir.zfs

/-- The log component of a drain run: the initial log followed by one
record per line, each stripped and tagged with the chosen severity. -/
theorem drain_fst (lvl : LogLevel) (st : List (LogLevel × String) × Option String)
    (ls : List String) :
    (drain lvl st ls).1 = st.1 ++ ls.map (fun l => (lvl, pyStrip l)) := by
  induction ls generalizing st with
  | nil => simp [drain]
  | cons l ls ih => simp [drain, ih, List.append_assoc]

/-- The err_msg component of a drain run over a nonempty line list is the
stripped final line. -/
theorem drain_snd_last (lvl : LogLevel) (ls : List String) :
    ∀ (st : List (LogLevel × String) × Option String) (l : String),
      ls.getLast? = some l → (drain lvl st ls).2 = some (pyStrip l) := by
  induction ls with
  | nil => intro st l h; simp at h
  | cons x xs ih =>
    intro st l h
    cases xs with
    | nil =>
      simp at h
      subst h
      rfl
    | cons y ys =>
      rw [List.getLast?_cons_cons] at h
      exact ih _ l h

/-- Draining a concatenation of line lists equals draining the second
from the state left by the first. -/
theorem drain_append (lvl : LogLevel) (a b : List String) :
    ∀ st, drain lvl st (a ++ b) = drain lvl (drain lvl st a) b := by
  induction a with
  | nil => intro st; rfl
  | cons x xs ih => intro st; exact ih _

/-- Claim C1: for every captured result with exit status 1 whose retained
diagnostic line matches one of the five known failure signatures, the
classifier raises the corresponding typed error carrying the entity name
extracted by that signature, the signatures being tried in the fixed
source order with the first match winning; in particular status 1 with
diagnostic cannot open (quote)tank/foo(quote): dataset does not exist
yields the dataset-not-found error for tank/foo. -/
theorem C1_classifier_known_signatures :
    (∀ e n, matchDatasetNotFound e = some n →
      check_returncode 1 (some e) = CheckOutcome.datasetNotFound n)
    ∧ (∀ e n, matchDatasetNotFound e = none → matchDatasetExists e = some n →
      check_returncode 1 (some e) = CheckOutcome.datasetExists n)
    ∧ (∀ e n, matchDatasetNotFound e = none → matchDatasetExists e = none →
      matchDatasetBusy e = some n →
      check_returncode 1 (some e) = CheckOutcome.datasetBusy n)
    ∧ (∀ e n, matchDatasetNotFound e = none → matchDatasetExists e = none →
      matchDatasetBusy e = none → matchHoldTagNotFound e = some n →
      check_returncode 1 (some e) = CheckOutcome.holdTagNotFound n)
    ∧ (∀ e n, matchDatasetNotFound e = none → matchDatasetExists e = none →
      matchDatasetBusy e = none → matchHoldTagNotFound e = none →
      matchHoldTagExists e = some n →
      check_returncode 1 (some e) = CheckOutcome.holdTagExists n)
    ∧ check_returncode 1
        (some ("cannot open " ++ quoteStr ++ "tank/foo" ++ quoteStr ++
          ": dataset does not exist")) = CheckOutcome.datasetNotFound "tank/foo" := by
  refine ⟨?_, ?_, ?_, ?_, ?_, by decide⟩
  · intro e n h1
    simp [check_returncode, h1]
  · intro e n h1 h2
    simp [check_returncode, h1, h2]
  · intro e n h1 h2 h3
    simp [check_returncode, h1, h2, h3]
  · intro e n h1 h2 h3 h4
    simp [check_returncode, h1, h2, h3, h4]
  · intro e n h1 h2 h3 h4 h5
    simp [check_returncode, h1, h2, h3, h4, h5]

/-- Witness for C1 at a concrete dataset-already-exists diagnostic. -/
theorem C1_classifier_known_signatures_witness :
    check_returncode 1
      (some ("cannot create filesystem " ++ quoteStr ++ "tank/foo" ++ quoteStr ++
        ": dataset already exists")) = CheckOutcome.datasetExists "tank/foo" :=
  C1_classifier_known_signatures.2.1
    ("cannot create filesystem " ++ quoteStr ++ "tank/foo" ++ quoteStr ++
      ": dataset already exists") "tank/foo" (by decide) (by decide)

/-- Claim C2: for every captured result with exit status 0 the classifier
returns success, and consequently run (check_call) and capture
(check_output) raise no error, regardless of the retained diagnostic
text. -/
theorem C2_exit_zero_never_raises :
    (∀ e, check_returncode 0 e = CheckOutcome.ok)
    ∧ (∀ cmd ls k, check_call cmd 0 ls k = Except.ok ())
    ∧ (∀ cmd sd ls k, check_output cmd 0 sd ls k = Except.ok (sd.map parseRows)) := by
  refine ⟨?_, ?_, ?_⟩
  · intro e; rfl
  · intro cmd ls k; rfl
  · intro cmd sd ls k; rfl

/-- Claim C3: every captured result whose exit status is neither 0 nor 1,
and every status-1 result whose diagnostic matches none of the five
signatures, is classified as the generic CalledProcessError carrying the
exit status and the captured diagnostic text verbatim. -/
theorem C3_generic_failure :
    (∀ rc e, rc ≠ 0 → rc ≠ 1 →
      check_returncode rc e = CheckOutcome.calledProcessError rc e)
    ∧ (∀ e, matchDatasetNotFound e = none → matchDatasetExists e = none →
      matchDatasetBusy e = none → matchHoldTagNotFound e = none →
      matchHoldTagExists e = none →
      check_returncode 1 (some e) = CheckOutcome.calledProcessError 1 (some e)) := by
  constructor
  · intro rc e h0 h1
    simp [check_returncode, h0, h1]
  · intro e h1 h2 h3 h4 h5
    simp [check_returncode, h1, h2, h3, h4, h5]

/-- Witness for C3 at status 2 and at status 1 with an unrecognised
diagnostic. -/
theorem C3_generic_failure_witness :
    check_returncode 2 (some "boom") = CheckOutcome.calledProcessError 2 (some "boom")
    ∧ check_returncode 1 (some "boom") = CheckOutcome.calledProcessError 1 (some "boom") :=
  ⟨C3_generic_failure.1 2 (some "boom") (by decide) (by decide),
   C3_generic_failure.2 "boom" rfl rfl rfl rfl rfl⟩

/-- Claim C4: communicate joins the diagnostic-drain task before the
last diagnostic line is reported and before the Result Classifier runs:
whatever prefix of the stderr lines the drain had processed when the
process wait returned (the cut point k, covering an arbitrarily delayed
final line), the err_msg it reports equals the value of a complete drain
run, and the classified capture result is independent of k. -/
theorem C4_drain_joined_before_classification :
    ∀ cmd sd ls k rc,
      (communicate cmd sd ls k).2 = (log_stderr cmd ls).2
      ∧ check_output cmd rc sd ls k = check_output cmd rc sd ls ls.length := by
  intro cmd sd ls k rc
  have hcomm : ∀ j : Nat, communicate cmd sd ls j =
      (sd.map parseRows, (log_stderr cmd ls).2) := by
    intro j
    unfold communicate log_stderr
    rw [← drain_append, List.take_append_drop]
  constructor
  · rw [hcomm k]
  · unfold check_output
    rw [hcomm k, hcomm ls.length]

/-- Claim C6: a successful capture splits the piped output into
newline-separated records and each record into tab-delimited fields in
order, so output a tab b tab c newline d tab e tab f newline yields
exactly the rows (a,b,c) and (d,e,f); and a capture only returns rows
when the classifier reports success, the typed error being raised
instead on failure. -/
theorem C6_capture_parses_rows :
    (∀ cmd ls k, check_output cmd 0 (some "a\tb\tc\nd\te\tf\n") ls k =
      Except.ok (some [["a", "b", "c"], ["d", "e", "f"]]))
    ∧ (∀ s, parseRows s = (pySplitlines s).map pySplitTab)
    ∧ (∀ cmd rc sd ls k out, check_output cmd rc sd ls k = Except.ok out →
      check_returncode rc (communicate cmd sd ls k).2 = CheckOutcome.ok
      ∧ out = sd.map parseRows) := by
  refine ⟨?_, fun s => rfl, ?_⟩
  · intro cmd ls k
    rfl
  · intro cmd rc sd ls k out h
    unfold check_output at h
    cases hc : check_returncode rc (communicate cmd sd ls k).2 <;> rw [hc] at h <;>
      simp only [Except.ok.injEq, reduceCtorEq] at h
    exact ⟨rfl, h.symm⟩

/-- Witness for C6 on a one-field capture with exit status 0. -/
theorem C6_capture_parses_rows_witness :
    check_returncode 0 (communicate ["zfs", "list"] (some "x") [] 0).2 = CheckOutcome.ok
    ∧ (some [["x"]] : Option (List (List String))) = (some "x").map parseRows :=
  C6_capture_parses_rows.2.2 ["zfs", "list"] 0 (some "x") [] 0 (some [["x"]]) (by rfl)

/-- Claim C7: a spawn request supplying both an input stream and an
output stream is rejected with the invalid-argument ValueError before any
process is started (no spawn configuration is produced). -/
theorem C7_both_pipes_rejected :
    ∀ cmd a b, Popen_init cmd (some a) (some b) =
      Except.error "only one of stdin or stdout may be set" := by
  intro cmd a b
  rfl

/-- Claim C5: closing a streaming handle whose backing process exited
with a nonzero status first closes the wrapped pipe end, then waits for
the process, and the typed error (the generic CalledProcessError of
zfs.py, carrying the status and command) is raised at that point — the
failure surfaces no later than the close call and is never dropped. -/
theorem C5_close_surfaces_failure :
    ∀ (rc : Int) (cmd : List String), rc ≠ 0 →
      PopenFile.close rc cmd = (true, Except.error ⟨rc, cmd⟩) := by
  intro rc cmd h
  simp [PopenFile.close, Process.wait, Process.check, h]

/-- Witness for C5 at exit status 1. -/
theorem C5_close_surfaces_failure_witness :
    PopenFile.close 1 ["zfs", "send", "tank@s"] =
      (true, Except.error ⟨1, ["zfs", "send", "tank@s"]⟩) :=
  C5_close_surfaces_failure 1 ["zfs", "send", "tank@s"] (by decide)

/-- Claim C8, amended: each line read by the stream drain is stripped of
leading and trailing whitespace (line.strip), emitted at INFO severity
exactly when the invocation contains the verbose flag and at DEBUG
otherwise, and stored as the last line, overwriting the previous value so
that only the final line survives. -/
theorem C8_drain_strips_logs_stores :
    ∀ cmd lines l,
      (log_stderr cmd lines).1 = lines.map (fun ln => (logLevelFor cmd, pyStrip ln))
      ∧ (logLevelFor cmd = LogLevel.info ↔ "-v" ∈ cmd)
      ∧ (lines.getLast? = some l → (log_stderr cmd lines).2 = some (pyStrip l)) := by
  intro cmd lines l
  refine ⟨?_, ?_, ?_⟩
  · have h := drain_fst (logLevelFor cmd) ([], none) lines
    simpa [log_stderr] using h
  · unfold logLevelFor
    by_cases h : "-v" ∈ cmd <;> simp [h]
  · intro h
    exact drain_snd_last (logLevelFor cmd) lines ([], none) l h

/-- Witness for C8 on a verbose invocation with one padded line. -/
theorem C8_drain_strips_logs_stores_witness :
    (log_stderr ["zfs", "send", "-v"] ["  written 1K  "]).2 = some "written 1K" :=
  (C8_drain_strips_logs_stores ["zfs", "send", "-v"] ["  written 1K  "]
    "  written 1K  ").2.2 rfl

/-- Counterexample to claim C8 as stated: the claim says each drained
line is stripped only of trailing whitespace, but on a line with leading
whitespace the drain stores the fully stripped line, which differs from
the trailing-only strip the claim describes. -/
theorem C8_strip_counterexample :
    (log_stderr ["zfs", "destroy"] [" tank"]).2 ≠ some (stripTrailing " tank") := by
  decide

/-- Claim C9, settled against the code: when the retained diagnostic is
its initial null value and the exit status is 1, the classifier does not
fall through to the generic CalledProcessError — applying re.search to
None raises a TypeError instead, contradicting the specified degradation
to an empty diagnostic. -/
theorem C9_null_diagnostic_typeerror :
    check_returncode 1 none = CheckOutcome.typeError
    ∧ check_returncode 1 none ≠ CheckOutcome.calledProcessError 1 none := by
  exact ⟨rfl, by decide⟩

/-- Claim C10: Process.wait and Process.poll always return None when they
return at all (the underlying status is consumed by the internal check),
hence PopenFile.close never returns a nonzero status — its value is None
whenever it does not raise — and a process failure is observable only
through the error raised inside wait. -/
theorem C10_wait_poll_close_return_none :
    (∀ (rc : Int) cmd r, Process.wait rc cmd = Except.ok r → r = none)
    ∧ (∀ (rc : Option Int) cmd r, Process.poll rc cmd = Except.ok r → r = none)
    ∧ (∀ (rc : Int) cmd r, (PopenFile.close rc cmd).2 = Except.ok r → r = none)
    ∧ (∀ (rc : Int) cmd, rc ≠ 0 →
        ∃ e, (PopenFile.close rc cmd).2 = Except.error e) := by
  refine ⟨?_, ?_, ?_, ?_⟩
  · intro rc cmd r h
    by_cases h0 : rc = 0
    · subst h0
      simpa [Process.wait, Process.check] using h.symm
    · simp [Process.wait, Process.check, h0] at h
  · intro rc cmd r h
    match rc with
    | none => simpa [Process.poll, Process.check] using h.symm
    | some n =>
      by_cases h0 : n = 0
      · subst h0
        simpa [Process.poll, Process.check] using h.symm
      · simp [Process.poll, Process.check, h0] at h
  · intro rc cmd r h
    by_cases h0 : rc = 0
    · subst h0
      simpa [PopenFile.close, Process.wait, Process.check, truthy] using h.symm
    · simp [PopenFile.close, Process.wait, Process.check, h0] at h
  · intro rc cmd h0
    exact ⟨⟨rc, cmd⟩, by simp [PopenFile.close, Process.wait, Process.check, h0]⟩

/-- Witness for C10: at status 0 wait returns None, and at status 1 close
raises. -/
theorem C10_wait_poll_close_return_none_witness :
    ((none : Option Int) = none)
    ∧ (∃ e, (PopenFile.close 1 ["zfs", "destroy", "tank"]).2 = Except.error e) :=
  ⟨C10_wait_poll_close_return_none.1 0 ["zfs"] none rfl,
   C10_wait_poll_close_return_none.2.2.2 1 ["zfs", "destroy", "tank"] (by decide)⟩
